import Mathlib

/-!
Verification of the pynml NML object model and serializer
(`src/lib/pynml/nml.py`), shallowly embedded in Lean.

Modelling conventions:
* Python objects are immutable Lean structures; an in-place mutating method
  becomes a function returning the updated structure.  A method that can
  raise returns `Option NMLError × σ`: the raised error (or `none`) paired
  with the post-state (unchanged when an error is raised, matching the
  fail-fast, no-partial-mutation behaviour of the source).
* The `xml.etree` element tree is `Elem`: a tag, the insertion-ordered
  attribute list, the `nsmap` keyword passed at element creation, and the
  insertion-ordered child list.  `getNML(parent)` in the source appends the
  new subtree to `parent` and returns it; here `getNML` returns the subtree
  and callers place it, which is the same tree.
* Python truthiness of optional string attributes (`if self._x:`) is
  `none`/`""` falsy, any other string truthy.
* `rfc3986.is_valid_uri(s, require_scheme=True)` is an external collaborator
  and is consumed as an abstract boolean predicate argument.
-/

namespace Pynml

/-- One markup element: tag, attributes in insertion order, the `nsmap`
bindings passed at creation, and children in insertion order. -/
inductive Elem where
  | mk (tag : String) (attrib : List (String × String))
      (nsmap : List (String × String)) (children : List Elem)
deriving Repr

def Elem.tag : Elem → String
  | .mk t _ _ _ => t

def Elem.attrib : Elem → List (String × String)
  | .mk _ a _ _ => a

def Elem.nsmap : Elem → List (String × String)
  | .mk _ _ n _ => n

def Elem.children : Elem → List Elem
  | .mk _ _ _ c => c

/-- Python `NAMESPACES = {'nml': 'http://schemas.ogf.org/nml/2013/05/base'}`. -/
def NAMESPACES : List (String × String) :=
  [("nml", "http://schemas.ogf.org/nml/2013/05/base")]

/-- The exceptions of `pynml.exceptions` raised by the module, plus the
`AttributeError` Python itself raises in the two `provides_port` setters. -/
inductive NMLError where
  | idError
  | existsDuringError
  | isAliasError
  | canProvidePortError
  | attributeError
deriving Repr, DecidableEq

/-- The attribute entries added by `if self._x: this.attrib[key] = self._x`:
nothing when the field is `None` or the empty string (Python falsy). -/
def optAttr (key : String) : Option String → List (String × String)
  | none => []
  | some v => if v.isEmpty then [] else [(key, v)]

/-- The attribute entry added by `if self.b: this.attrib[key] = str(self.b)`
for a boolean field: `str(True)` is `"True"`. -/
def boolAttr (key : String) (b : Bool) : List (String × String) :=
  if b then [(key, "True")] else []

/-- Python `Location.__init__` fields (all optional, unvalidated). -/
structure Location where
  identification : Option String := none
  name : Option String := none
  longitude : Option String := none
  latitude : Option String := none
  altitude : Option String := none
  unlocode : Option String := none
  address : Option String := none
deriving Repr

/-- Python `Location.getNML`: a plain element (no nsmap), attributes iff truthy. -/
def Location.getNML (self : Location) : Elem :=
  Elem.mk "Location"
    (optAttr "id" self.identification ++ optAttr "name" self.name ++
     optAttr "long" self.longitude ++ optAttr "lat" self.latitude ++
     optAttr "alt" self.altitude ++ optAttr "unlocode" self.unlocode ++
     optAttr "address" self.address)
    [] []

/-- Python `Lifetime.__init__` fields. `end` is a Lean keyword, hence `end_`. -/
structure Lifetime where
  start : Option String := none
  end_ : Option String := none
deriving Repr

/-- Python `Lifetime.getNML`. -/
def Lifetime.getNML (self : Lifetime) : Elem :=
  Elem.mk "Lifetime" (optAttr "start" self.start ++ optAttr "end" self.end_) [] []

/-- Python `Label.__init__` fields. -/
structure Label where
  labeltype : Option String := none
  value : Option String := none
deriving Repr

/-- Python `Label.getNML`. -/
def Label.getNML (self : Label) : Elem :=
  Elem.mk "Label"
    (optAttr "labeltype" self.labeltype ++ optAttr "value" self.value) [] []

/-- Python `LabelGroup.__init__` fields (no serialization logic in the source). -/
structure LabelGroup where
  labeltype : String := ""
  values : String := ""
deriving Repr

/-- The state set up by `NetworkObject.__init__`, shared by every concrete
variant.  `obj` is the type of related network objects (tied to `NObj`
below). -/
structure NetworkObject (obj : Type) where
  exists_during_lifetimes : List Lifetime := []
  is_alias_network_objects : List obj := []
  located_at_location : Option Location := none
  identification : Option String := none
  name : Option String := none
  version : Option String := none
deriving Repr

/-- Python `Node.__init__` state. -/
structure Node (obj : Type) extends NetworkObject obj where
  has_inbound_port_ports : List obj := []
  has_outbound_port_ports : List obj := []
  has_service_services : List obj := []
  implemented_by_nodes : List obj := []
deriving Repr

/-- Python `Port.__init__` state. -/
structure Port (obj : Type) extends NetworkObject obj where
  has_label_label : Option Label := none
  has_service_services : List obj := []
  is_sink_links : List obj := []
  is_source_links : List obj := []
  encoding : Option String := none
deriving Repr

/-- Python `Link.__init__` state.  The constructor initializes `has_label_labels`;
`Link.has_label` instead assigns the attribute `has_label_label`, which the
constructor never creates — it is modelled as a second field that is `none`
until `has_label` runs. -/
structure Link (obj : Type) extends NetworkObject obj where
  has_label_labels : Option Label := none
  has_label_label : Option Label := none
  is_serial_compound_link_links : List obj := []
  encoding : Option String := none
  no_return_traffic : Bool := false
deriving Repr

/-- Python `SwitchingService.__init__` state. -/
structure SwitchingService (obj : Type) extends NetworkObject obj where
  has_inbound_port_ports : List obj := []
  has_outbound_port_ports : List obj := []
  provides_link_links : List obj := []
  encoding : Option String := none
  label_swapping : Bool := false
deriving Repr

/-- Python `AdaptationService.__init__` state. -/
structure AdaptationService (obj : Type) extends NetworkObject obj where
  adaptation_function : Option String := none
  can_provide_port_ports : List obj := []
  provides_port_ports : List obj := []
deriving Repr

/-- Python `DeadaptationService.__init__` state. -/
structure DeadaptationService (obj : Type) extends NetworkObject obj where
  adaptation_function : Option String := none
  can_provide_port_ports : List obj := []
  provides_port_ports : List obj := []
deriving Repr

/-- Python `Topology.__init__` state. -/
structure Topology (obj : Type) extends NetworkObject obj where
  has_node_nodes : List obj := []
  has_inbound_port_ports : List obj := []
  has_outbound_port_ports : List obj := []
  has_service_services : List obj := []
  has_topology_topologies : List obj := []
deriving Repr

/-- Python `PortGroup.__init__` state. -/
structure PortGroup (obj : Type) extends NetworkObject obj where
  has_label_group_group : Option LabelGroup := none
  has_port_ports : List obj := []
  is_sink_link_groups : List obj := []
  is_source_link_groups : List obj := []
  encoding : Option String := none
deriving Repr

/-- Python `LinkGroup.__init__` state. -/
structure LinkGroup (obj : Type) extends NetworkObject obj where
  has_label_group_group : Option LabelGroup := none
  has_link_links : List obj := []
  is_serial_compound_link_link_groups : List obj := []
  encoding : Option String := none
deriving Repr

/-- Python `BidirectionalPort.__init__` state. -/
structure BidirectionalPort (obj : Type) extends NetworkObject obj where
  has_port_ports : List obj := []
  encoding : Option String := none
deriving Repr

/-- Python `BidirectionalLink.__init__` state. -/
structure BidirectionalLink (obj : Type) extends NetworkObject obj where
  has_link_links : List obj := []
  encoding : Option String := none
deriving Repr

/-- A concrete network object: the closed sum of the instantiable variants of
the `NetworkObject` class hierarchy (the abstract classes `Service` and
`Group` add no state).  Python's dynamic dispatch becomes a match on the
variant. -/
inductive NObj where
  | node : Node NObj → NObj
  | port : Port NObj → NObj
  | link : Link NObj → NObj
  | switchingService : SwitchingService NObj → NObj
  | adaptationService : AdaptationService NObj → NObj
  | deadaptationService : DeadaptationService NObj → NObj
  | topology : Topology NObj → NObj
  | portGroup : PortGroup NObj → NObj
  | linkGroup : LinkGroup NObj → NObj
  | bidirectionalPort : BidirectionalPort NObj → NObj
  | bidirectionalLink : BidirectionalLink NObj → NObj
deriving Repr

/-- Python `self.__class__.__name__`. -/
def NObj.className : NObj → String
  | .node _ => "Node"
  | .port _ => "Port"
  | .link _ => "Link"
  | .switchingService _ => "SwitchingService"
  | .adaptationService _ => "AdaptationService"
  | .deadaptationService _ => "DeadaptationService"
  | .topology _ => "Topology"
  | .portGroup _ => "PortGroup"
  | .linkGroup _ => "LinkGroup"
  | .bidirectionalPort _ => "BidirectionalPort"
  | .bidirectionalLink _ => "BidirectionalLink"

/-- The shared `NetworkObject` part of any concrete variant. -/
def NObj.base : NObj → NetworkObject NObj
  | .node s => s.toNetworkObject
  | .port s => s.toNetworkObject
  | .link s => s.toNetworkObject
  | .switchingService s => s.toNetworkObject
  | .adaptationService s => s.toNetworkObject
  | .deadaptationService s => s.toNetworkObject
  | .topology s => s.toNetworkObject
  | .portGroup s => s.toNetworkObject
  | .linkGroup s => s.toNetworkObject
  | .bidirectionalPort s => s.toNetworkObject
  | .bidirectionalLink s => s.toNetworkObject

/-- Replace the shared `NetworkObject` part, keeping the variant fields:
how a base-class setter mutates `self`. -/
def NObj.withBase : NObj → NetworkObject NObj → NObj
  | .node s, b => .node { s with toNetworkObject := b }
  | .port s, b => .port { s with toNetworkObject := b }
  | .link s, b => .link { s with toNetworkObject := b }
  | .switchingService s, b => .switchingService { s with toNetworkObject := b }
  | .adaptationService s, b => .adaptationService { s with toNetworkObject := b }
  | .deadaptationService s, b => .deadaptationService { s with toNetworkObject := b }
  | .topology s, b => .topology { s with toNetworkObject := b }
  | .portGroup s, b => .portGroup { s with toNetworkObject := b }
  | .linkGroup s, b => .linkGroup { s with toNetworkObject := b }
  | .bidirectionalPort s, b => .bidirectionalPort { s with toNetworkObject := b }
  | .bidirectionalLink s, b => .bidirectionalLink { s with toNetworkObject := b }

/-- The `identification` property getter. -/
def NObj.identification (o : NObj) : Option String :=
  o.base.identification

/-- The `is_alias_network_objects` collection of any variant. -/
def NObj.aliasObjects (o : NObj) : List NObj :=
  o.base.is_alias_network_objects

/-- The `identification` property setter: `is_valid_uri` is the external
`rfc3986.is_valid_uri(·, require_scheme=True)` predicate (spec §6 consumed
interface); on success the field is stored, on failure `IdError` is raised
and nothing is mutated. -/
def NObj.setIdentification (is_valid_uri : String → Bool) (self : NObj)
    (identification : String) : Option NMLError × NObj :=
  if is_valid_uri identification then
    (none, self.withBase { self.base with identification := some identification })
  else
    (some .idError, self)

/-- Python `NetworkObject.is_alias`: raises `IsAliasError` unless the argument has
the same concrete class name, otherwise appends it. -/
def NObj.is_alias (self network_object : NObj) : Option NMLError × NObj :=
  if self.className ≠ network_object.className then
    (some .isAliasError, self)
  else
    (none, self.withBase
      { self.base with is_alias_network_objects :=
          self.base.is_alias_network_objects ++ [network_object] })

/-- Python `NetworkObject.exists_during`: raises `ExistsDuringError` when the
argument's class is not `Lifetime`; the embedding types the argument as
`Lifetime`, so the append always happens. -/
def NObj.exists_during (self : NObj) (lifetime : Lifetime) : NObj :=
  self.withBase
    { self.base with exists_during_lifetimes :=
        self.base.exists_during_lifetimes ++ [lifetime] }

/-- Python `NetworkObject.locatedAt`: unconditional overwrite. -/
def NObj.locatedAt (self : NObj) (location : Location) : NObj :=
  self.withBase { self.base with located_at_location := some location }

/-- Python `Node.has_inbound_port`. -/
def Node.has_inbound_port (self : Node obj) (port : obj) : Node obj :=
  { self with has_inbound_port_ports := self.has_inbound_port_ports ++ [port] }

/-- Python `Node.has_outbound_port`. -/
def Node.has_outbound_port (self : Node obj) (port : obj) : Node obj :=
  { self with has_outbound_port_ports := self.has_outbound_port_ports ++ [port] }

/-- Python `Topology.has_node`. -/
def Topology.has_node (self : Topology obj) (node : obj) : Topology obj :=
  { self with has_node_nodes := self.has_node_nodes ++ [node] }

/-- Python `Topology.has_outbound_port`. -/
def Topology.has_outbound_port (self : Topology obj) (port : obj) : Topology obj :=
  { self with has_outbound_port_ports := self.has_outbound_port_ports ++ [port] }

/-- Python `Link.has_label`: assigns `self.has_label_label` (not the
`has_label_labels` field the constructor initializes). -/
def Link.has_label (self : Link obj) (label : Label) : Link obj :=
  { self with has_label_label := some label }

/-- Python `Link.is_serial_compound_link`: wholesale assignment of the list. -/
def Link.is_serial_compound_link (self : Link obj) (ordered_links : List obj) :
    Link obj :=
  { self with is_serial_compound_link_links := ordered_links }

/-- Python `LinkGroup.is_serial_compound_link`: appends the single argument. -/
def LinkGroup.is_serial_compound_link (self : LinkGroup obj) (link_group : obj) :
    LinkGroup obj :=
  { self with is_serial_compound_link_link_groups :=
      self.is_serial_compound_link_link_groups ++ [link_group] }

/-- Python `AdaptationService.can_provide_port`: raises `CanProvidePortError`
unless the argument's class name is `Port` or `PortGroup`, otherwise
appends it. -/
def AdaptationService.can_provide_port (self : AdaptationService NObj)
    (port : NObj) : Option NMLError × AdaptationService NObj :=
  if port.className ∉ ["Port", "PortGroup"] then
    (some .canProvidePortError, self)
  else
    (none, { self with can_provide_port_ports :=
        self.can_provide_port_ports ++ [port] })

/-- Python `DeadaptationService.can_provide_port`: no validation, plain append. -/
def DeadaptationService.can_provide_port (self : DeadaptationService NObj)
    (port : NObj) : Option NMLError × DeadaptationService NObj :=
  (none, { self with can_provide_port_ports :=
      self.can_provide_port_ports ++ [port] })

/-- Python `AdaptationService.provides_port` executes
`self.provides_port.append(port)`: `self.provides_port` is the bound method
itself (the collection is named `provides_port_ports`), and a bound method
has no `append`, so Python raises `AttributeError` before touching any
field. -/
def AdaptationService.provides_port (self : AdaptationService NObj)
    (_port : NObj) : Option NMLError × AdaptationService NObj :=
  (some .attributeError, self)

/-- Python `DeadaptationService.provides_port`: the same
`self.provides_port.append(port)` defect — `AttributeError`, no mutation. -/
def DeadaptationService.provides_port (self : DeadaptationService NObj)
    (_port : NObj) : Option NMLError × DeadaptationService NObj :=
  (some .attributeError, self)

/-- The `hasLabel` `Relation` wrapper for an optional `Label` field. -/
def labelRelation : Option Label → List Elem
  | none => []
  | some lab => [Elem.mk "Relation" [("type", "hasLabel")] [] [lab.getNML]]

/-- The `existsDuring` `Relation` wrappers of the base serializer. -/
def lifetimeRelations (ls : List Lifetime) : List Elem :=
  ls.map fun l => Elem.mk "Relation" [("type", "existsDuring")] [] [l.getNML]

/-- The `locatedAt` `Relation` wrapper of the base serializer. -/
def locationRelation : Option Location → List Elem
  | none => []
  | some loc => [Elem.mk "Relation" [("type", "locatedAt")] [] [loc.getNML]]

/-- The `id`/`name`/`version` attributes of `NetworkObject.getNML`, each
emitted iff truthy. -/
def baseAttrs (s : NetworkObject obj) : List (String × String) :=
  optAttr "id" s.identification ++ optAttr "name" s.name ++
  optAttr "version" s.version

mutual

/-- One loop `for x in xs: relation = SubElement(this, 'Relation');
relation.attrib['type'] = ty; x.getNML(relation)`. -/
def relationEach (ty : String) : List NObj → List Elem
  | [] => []
  | o :: os => Elem.mk "Relation" [("type", ty)] [] [o.getNML] :: relationEach ty os

/-- One loop `for x in xs: x.getNML(this)` (direct-nesting style). -/
def directEach : List NObj → List Elem
  | [] => []
  | o :: os => o.getNML :: directEach os

/-- The children appended by `NetworkObject.getNML`: `isAlias` relations,
then `existsDuring` relations, then the `locatedAt` relation. -/
def baseChildren (s : NetworkObject NObj) : List Elem :=
  relationEach "isAlias" s.is_alias_network_objects ++
  lifetimeRelations s.exists_during_lifetimes ++
  locationRelation s.located_at_location

/-- The serializer: each variant's `getNML` runs `NetworkObject.getNML`
(element tagged with the class name, created with `nsmap=NAMESPACES`, base
attributes and base relations), then appends its own attributes and
children.  `PortGroup`, `LinkGroup`, `BidirectionalPort` and
`BidirectionalLink` define no `getNML` of their own, so only the inherited
base behaviour runs for them. -/
def NObj.getNML : NObj → Elem
  | .node s =>
      Elem.mk "Node" (baseAttrs s.toNetworkObject) NAMESPACES
        (baseChildren s.toNetworkObject ++
         relationEach "hasInboundPort" s.has_inbound_port_ports ++
         relationEach "hasOutoundPort" s.has_outbound_port_ports ++
         relationEach "hasService" s.has_service_services ++
         directEach s.implemented_by_nodes)
  | .port s =>
      Elem.mk "Port"
        (baseAttrs s.toNetworkObject ++ optAttr "encoding" s.encoding)
        NAMESPACES
        (baseChildren s.toNetworkObject ++
         labelRelation s.has_label_label ++
         relationEach "hasService" s.has_service_services ++
         relationEach "isSink" s.is_sink_links ++
         relationEach "isSource" s.is_source_links)
  | .link s =>
      Elem.mk "Link"
        (baseAttrs s.toNetworkObject ++ optAttr "encoding" s.encoding ++
         boolAttr "no_return_traffic" s.no_return_traffic)
        NAMESPACES
        (baseChildren s.toNetworkObject)
  | .switchingService s =>
      Elem.mk "SwitchingService"
        (baseAttrs s.toNetworkObject ++ optAttr "encoding" s.encoding ++
         boolAttr "label_swapping" s.label_swapping)
        NAMESPACES
        (baseChildren s.toNetworkObject ++
         directEach s.has_inbound_port_ports ++
         directEach s.has_outbound_port_ports ++
         directEach s.provides_link_links)
  | .adaptationService s =>
      Elem.mk "AdaptationService"
        (baseAttrs s.toNetworkObject ++
         optAttr "adaptation_function" s.adaptation_function)
        NAMESPACES
        (baseChildren s.toNetworkObject ++
         directEach s.can_provide_port_ports ++
         directEach s.provides_port_ports)
  | .deadaptationService s =>
      Elem.mk "DeadaptationService"
        (baseAttrs s.toNetworkObject ++
         optAttr "adaptation_function" s.adaptation_function)
        NAMESPACES
        (baseChildren s.toNetworkObject ++
         directEach s.can_provide_port_ports ++
         directEach s.provides_port_ports)
  | .topology s =>
      Elem.mk "Topology" (baseAttrs s.toNetworkObject) NAMESPACES
        (baseChildren s.toNetworkObject ++
         relationEach "hasNode" s.has_node_nodes ++
         relationEach "hasInboundPort" s.has_inbound_port_ports ++
         relationEach "hasOutboundPort" s.has_outbound_port_ports ++
         relationEach "hasService" s.has_service_services ++
         relationEach "hasTopology" s.has_topology_topologies)
  | .portGroup s =>
      Elem.mk "PortGroup" (baseAttrs s.toNetworkObject) NAMESPACES
        (baseChildren s.toNetworkObject)
  | .linkGroup s =>
      Elem.mk "LinkGroup" (baseAttrs s.toNetworkObject) NAMESPACES
        (baseChildren s.toNetworkObject)
  | .bidirectionalPort s =>
      Elem.mk "BidirectionalPort" (baseAttrs s.toNetworkObject) NAMESPACES
        (baseChildren s.toNetworkObject)
  | .bidirectionalLink s =>
      Elem.mk "BidirectionalLink" (baseAttrs s.toNetworkObject) NAMESPACES
        (baseChildren s.toNetworkObject)

end

/-- Serializing the same root twice in a row, first call before the second:
the source `getNML` reads only the entity's fields and builds a fresh
element tree (with `parent=None` nothing pre-existing is touched), so each
call is the same pure function of the graph. -/
def serializeTwice (o : NObj) : Elem × Elem :=
  let first := o.getNML
  let second := o.getNML
  (first, second)

/-! Scenario entities for the concrete claims. -/

/-- A Port whose `identification` was set to the example URN. -/
def portX : NObj :=
  .port { identification := some "urn:ogf:network:example.org:port:x" }

/-- A Node on which `has_inbound_port(portX)` was called. -/
def nodeA : NObj :=
  .node (Node.has_inbound_port {} portX)

/-- A Topology on which `has_node(nodeA)` was called. -/
def topologyT : NObj :=
  .topology (Topology.has_node {} nodeA)

/-- A fresh Port with nothing set. -/
def portP : NObj := .port {}

/-- A Node on which `has_outbound_port(portP)` was called. -/
def nodeNP : NObj :=
  .node (Node.has_outbound_port {} portP)

/-- A Topology on which `has_outbound_port(portP)` was called. -/
def topologyTP : NObj :=
  .topology (Topology.has_outbound_port {} portP)

/-- A PortGroup whose `encoding` field was set. -/
def pgSample : PortGroup NObj := { encoding := some "ethernet" }

/-- Example instantiation of the consumed URI-validity predicate, accepting
exactly the example URN. -/
def urnOnly : String → Bool :=
  fun s => s == "urn:ogf:network:example.org:port:x"

/-! Helper lemmas. -/

theorem base_withBase (o : NObj) (b : NetworkObject NObj) :
    (o.withBase b).base = b := by
  cases o <;> rfl

theorem mem_relationEach_last (ty : String) (xs : List NObj) (b : NObj) :
    Elem.mk "Relation" [("type", ty)] [] [b.getNML] ∈ relationEach ty (xs ++ [b]) := by
  induction xs with
  | nil => simp [relationEach]
  | cons x xs ih =>
      simp only [List.cons_append, relationEach, List.mem_cons]
      exact Or.inr ih

theorem optAttr_key {k : String} {x : Option String} {p : String × String}
    (h : p ∈ optAttr k x) : p.1 = k := by
  cases x with
  | none => simp [optAttr] at h
  | some v =>
      by_cases hv : v.isEmpty <;> simp [optAttr, hv] at h
      subst h
      rfl

theorem baseChildren_mem_alias (s : NetworkObject NObj) (b : NObj) :
    Elem.mk "Relation" [("type", "isAlias")] [] [b.getNML]
      ∈ baseChildren
          { s with is_alias_network_objects := s.is_alias_network_objects ++ [b] } := by
  simp only [baseChildren]
  exact List.mem_append_left _ (List.mem_append_left _ (mem_relationEach_last _ _ _))

theorem getNML_children_has_base (o : NObj) (e : Elem)
    (h : e ∈ baseChildren o.base) : e ∈ (o.getNML).children := by
  cases o with
  | node s =>
      exact List.mem_append_left _ (List.mem_append_left _
        (List.mem_append_left _ (List.mem_append_left _ h)))
  | port s =>
      exact List.mem_append_left _ (List.mem_append_left _
        (List.mem_append_left _ (List.mem_append_left _ h)))
  | link s => exact h
  | switchingService s =>
      exact List.mem_append_left _ (List.mem_append_left _
        (List.mem_append_left _ h))
  | adaptationService s =>
      exact List.mem_append_left _ (List.mem_append_left _ h)
  | deadaptationService s =>
      exact List.mem_append_left _ (List.mem_append_left _ h)
  | topology s =>
      exact List.mem_append_left _ (List.mem_append_left _
        (List.mem_append_left _ (List.mem_append_left _ (List.mem_append_left _ h))))
  | portGroup s => exact h
  | linkGroup s => exact h
  | bidirectionalPort s => exact h
  | bidirectionalLink s => exact h

/-! Claim theorems. -/

/-- C1: for a Topology `T` with `has_node(nodeA)`, where `nodeA` had
`has_inbound_port(portX)` and `portX.identification` is the example URN,
`getNML()` with no parent returns a root element tagged `Topology` carrying
the `nml` namespace binding, containing a `Relation[type=hasNode]` wrapping
a `Node`, which contains a `Relation[type=hasInboundPort]` wrapping a
`Port` with attribute `id` equal to the URN. -/
theorem topology_node_port_scenario :
    topologyT.getNML =
      Elem.mk "Topology" [] NAMESPACES
        [Elem.mk "Relation" [("type", "hasNode")] []
          [Elem.mk "Node" [] NAMESPACES
            [Elem.mk "Relation" [("type", "hasInboundPort")] []
              [Elem.mk "Port" [("id", "urn:ogf:network:example.org:port:x")]
                NAMESPACES []]]]] ∧
    topologyT.getNML.tag = "Topology" ∧
    ("nml", "http://schemas.ogf.org/nml/2013/05/base") ∈ topologyT.getNML.nsmap :=
  ⟨rfl, rfl, by decide⟩

/-- C2: with `is_valid_uri` the consumed URI-validity predicate, assigning
a valid string to `identification` succeeds and the getter then returns it;
assigning an invalid string raises `IdError` and leaves the object, hence
the getter's value, unchanged. -/
theorem setIdentification_correct (is_valid_uri : String → Bool) (o : NObj)
    (s : String) :
    (is_valid_uri s = true →
      (o.setIdentification is_valid_uri s).1 = none ∧
      (o.setIdentification is_valid_uri s).2.identification = some s) ∧
    (is_valid_uri s = false →
      o.setIdentification is_valid_uri s = (some .idError, o) ∧
      (o.setIdentification is_valid_uri s).2.identification = o.identification) := by
  constructor
  · intro h
    simp [NObj.setIdentification, h, NObj.identification, base_withBase]
  · intro h
    simp [NObj.setIdentification, h]

/-- Witness for C2 at the example URN and at a rejected string. -/
theorem setIdentification_correct_witness :
    ((NObj.port {}).setIdentification urnOnly
        "urn:ogf:network:example.org:port:x").2.identification
      = some "urn:ogf:network:example.org:port:x" ∧
    (NObj.port {}).setIdentification urnOnly "no scheme"
      = (some .idError, .port {}) :=
  ⟨((setIdentification_correct urnOnly (.port {})
      "urn:ogf:network:example.org:port:x").1 (by decide)).2,
   ((setIdentification_correct urnOnly (.port {}) "no scheme").2 (by decide)).1⟩

/-- C3: `a.is_alias(b)` for `a`, `b` of the same concrete variant succeeds,
appends `b` to the alias collection, and the subsequent serialization of
`a` contains a `Relation[type=isAlias]` wrapping `b`'s full serialization;
for different variants it raises `IsAliasError`, leaves the collection
unchanged and the serialization unaffected. -/
theorem is_alias_correct (a b : NObj) :
    (a.className = b.className →
      (a.is_alias b).1 = none ∧
      (a.is_alias b).2.aliasObjects = a.aliasObjects ++ [b] ∧
      Elem.mk "Relation" [("type", "isAlias")] [] [b.getNML]
        ∈ ((a.is_alias b).2.getNML).children) ∧
    (a.className ≠ b.className →
      a.is_alias b = (some .isAliasError, a) ∧
      ((a.is_alias b).2).getNML = a.getNML) := by
  constructor
  · intro h
    have hres : (a.is_alias b).2 =
        a.withBase { a.base with is_alias_network_objects :=
          a.base.is_alias_network_objects ++ [b] } := by
      simp [NObj.is_alias, h]
    refine ⟨by simp [NObj.is_alias, h], ?_, ?_⟩
    · rw [hres]
      simp [NObj.aliasObjects, base_withBase]
    · rw [hres]
      apply getNML_children_has_base
      rw [base_withBase]
      exact baseChildren_mem_alias a.base b
  · intro h
    simp [NObj.is_alias, h]

/-- Witness for C3: two Nodes alias successfully; a Node may not alias a
Port. -/
theorem is_alias_correct_witness :
    ((NObj.node {}).is_alias (NObj.node {})).1 = none ∧
    (NObj.node {}).is_alias (NObj.port {})
      = (some .isAliasError, NObj.node {}) :=
  ⟨((is_alias_correct (NObj.node {}) (NObj.node {})).1 (by decide)).1,
   ((is_alias_correct (NObj.node {}) (NObj.port {})).2 (by decide)).1⟩

/-- C4 counterexample: a PortGroup whose `encoding` field is set to
`"ethernet"` serializes with an empty attribute list — no `encoding`
attribute is emitted, contrary to the claim. -/
theorem portGroup_encoding_attr_missing :
    (NObj.portGroup pgSample).getNML.attrib = [] ∧
    ("encoding", "ethernet") ∉ (NObj.portGroup pgSample).getNML.attrib :=
  ⟨rfl, by decide⟩

/-- C4 amended: serializing a PortGroup or a LinkGroup never emits an
`encoding` attribute, even when the field is set: neither class overrides
`getNML`, so only the inherited base serializer (attributes `id`, `name`,
`version`) runs. -/
theorem group_encoding_never_emitted (pg : PortGroup NObj) (lg : LinkGroup NObj)
    (v : String) :
    ("encoding", v) ∉ (NObj.portGroup pg).getNML.attrib ∧
    ("encoding", v) ∉ (NObj.linkGroup lg).getNML.attrib := by
  constructor <;>
  · intro h
    simp only [NObj.getNML, Elem.attrib, baseAttrs, List.mem_append] at h
    rcases h with (h | h) | h <;> exact absurd (optAttr_key h) (by simp)

/-- C5: the code emits relation type `hasOutoundPort` (missing a "b") for a
Node's outbound ports, while Topology emits the correct `hasOutboundPort`
for its own — the two strings differ, so Node does not emit the string the
claim (and the schema vocabulary) requires. -/
theorem node_hasOutoundPort_typo :
    nodeNP.getNML.children =
      [Elem.mk "Relation" [("type", "hasOutoundPort")] [] [portP.getNML]] ∧
    topologyTP.getNML.children =
      [Elem.mk "Relation" [("type", "hasOutboundPort")] [] [portP.getNML]] ∧
    "hasOutoundPort" ≠ "hasOutboundPort" :=
  ⟨rfl, rfl, by decide⟩

/-- C6: `provides_port` on AdaptationService and DeadaptationService always
raises (the setter appends to the bound method object itself), leaves the
`provides_port_ports` collection unchanged, and the serialization is
exactly what it was before the call. -/
theorem provides_port_always_fails (s : AdaptationService NObj)
    (t : DeadaptationService NObj) (p q : NObj) :
    s.provides_port p = (some .attributeError, s) ∧
    (s.provides_port p).2.provides_port_ports = s.provides_port_ports ∧
    (NObj.adaptationService (s.provides_port p).2).getNML
      = (NObj.adaptationService s).getNML ∧
    t.provides_port q = (some .attributeError, t) ∧
    (NObj.deadaptationService (t.provides_port q).2).getNML
      = (NObj.deadaptationService t).getNML :=
  ⟨rfl, rfl, rfl, rfl, rfl⟩

/-- C7: `is_serial_compound_link` on a Link replaces the whole stored
sequence with the given one; on a LinkGroup it appends the single argument,
preserving the previous elements. -/
theorem serial_compound_semantics (s : Link NObj) (ordered_links : List NObj)
    (g : LinkGroup NObj) (x : NObj) :
    (s.is_serial_compound_link ordered_links).is_serial_compound_link_links
      = ordered_links ∧
    (g.is_serial_compound_link x).is_serial_compound_link_link_groups
      = g.is_serial_compound_link_link_groups ++ [x] :=
  ⟨rfl, rfl⟩

/-- C8: `can_provide_port` on AdaptationService raises
`CanProvidePortError` for an entity that is neither a Port nor a PortGroup,
leaving the collection (hence the serialization) unchanged; for a Port or
PortGroup it succeeds and appends the entity. -/
theorem can_provide_port_correct (s : AdaptationService NObj) (e : NObj) :
    (e.className ≠ "Port" ∧ e.className ≠ "PortGroup" →
      s.can_provide_port e = (some .canProvidePortError, s) ∧
      (s.can_provide_port e).2.can_provide_port_ports
        = s.can_provide_port_ports ∧
      (NObj.adaptationService (s.can_provide_port e).2).getNML
        = (NObj.adaptationService s).getNML) ∧
    (e.className = "Port" ∨ e.className = "PortGroup" →
      s.can_provide_port e =
        (none, { s with can_provide_port_ports :=
            s.can_provide_port_ports ++ [e] })) := by
  constructor
  · intro h
    simp [AdaptationService.can_provide_port, h.1, h.2]
  · intro h
    rcases h with h | h <;> simp [AdaptationService.can_provide_port, h]

/-- Witness for C8: a Link is rejected, a Port is appended. -/
theorem can_provide_port_correct_witness :
    ({} : AdaptationService NObj).can_provide_port (NObj.link {})
      = (some .canProvidePortError, {}) ∧
    (({} : AdaptationService NObj).can_provide_port (NObj.port {})).1 = none :=
  ⟨((can_provide_port_correct {} (NObj.link {})).1 ⟨by decide, by decide⟩).1,
   by rw [(can_provide_port_correct {} (NObj.port {})).2 (Or.inl (by decide))]⟩

/-- C9: serializing the same unmutated root twice yields identical trees
(the source `getNML` only reads entity fields and builds fresh elements, so
both calls are the same pure function and the first cannot perturb the
second). -/
theorem serialize_twice_identical (o : NObj) :
    (serializeTwice o).1 = (serializeTwice o).2 ∧
    serializeTwice o = (o.getNML, o.getNML) :=
  ⟨rfl, rfl⟩

/-- C10: `Link.has_label` writes the `has_label_label` attribute, which the
Link constructor never initializes (it initializes `has_label_labels`) and
which `Link.getNML` never reads — so attaching a Label to a Link leaves its
serialized output exactly unchanged. -/
theorem link_label_never_serialized (s : Link NObj) (lab : Label) :
    (s.has_label lab).has_label_label = some lab ∧
    (s.has_label lab).has_label_labels = s.has_label_labels ∧
    (NObj.link (s.has_label lab)).getNML = (NObj.link s).getNML :=
  ⟨rfl, rfl, rfl⟩

end Pynml
